import Mathlib

/-!
Verification of the retrieval-augmented request pipeline
(`mcp_rag_server/main.py`) and the chat event-intake layer
(`slack_agent/bot.py`).

The Python code is shallowly embedded: each Python function becomes a total
Lean function; external services (embedding model, vector index, generation
backend HTTP, chat transport) are oracles passed as parameters, with an
explicit constructor for each exception class the code distinguishes
(`Timeout`, `ConnectionError`, any other exception, HTTP responses). Python
dictionary access `d["k"]` that may raise `KeyError` is modelled by `Option`
fields, with the surrounding `try/except` made explicit in the `match`.
Python truthiness of strings (both `None` and `""` are falsy) is modelled by
`truthy` / `orFalsy`.
-/

namespace RagMcp

/-- A chat message `{role, content}` (pydantic `MCPMessage`). -/
structure MCPMessage where
  role : String
  content : String
deriving DecidableEq, Repr

/-- Request body of `/ask` and of the generation backend (pydantic
`MCPRequest`). `temperature` is modelled as a rational; it is only ever
carried, never computed with. -/
structure MCPRequest where
  model : String
  messages : List MCPMessage
  max_tokens : Nat
  temperature : ℚ
deriving DecidableEq, Repr

/-- Response body `{messages: [...]}` (pydantic `MCPResponse`). -/
structure MCPResponse where
  messages : List MCPMessage
deriving DecidableEq, Repr

/-- Python truthiness of an optional string: `None` and `""` are falsy. -/
def truthy : Option String → Bool
  | some s => s ≠ ""
  | none => false

/-- Python `x or d` where `x` is an optional string: falls through to `d`
when `x` is `None` or the empty string. -/
def orFalsy : Option String → String → String
  | some s, d => if s = "" then d else s
  | none, d => d

/-- A Qdrant hit payload: a string-keyed mapping, modelled as an
association list. -/
abbrev Payload := List (String × String)

/-- `payload.get(k)`: first binding of key `k`, if any. -/
def pget (p : Payload) (k : String) : Option String :=
  (p.find? (fun kv => kv.1 = k)).map (fun kv => kv.2)

/-- A search hit as used by `retrieve_context`: only the payload is read
(id and score are logged only). `h.payload` may be `None` in the client
API, hence the `Option`. -/
structure Hit where
  payload : Option Payload
deriving DecidableEq, Repr

/-- `payload.get("answer") or payload.get("text") or "<no-answer-field>"`
from `retrieve_context` (main.py line 82). -/
def hitText (p : Payload) : String :=
  orFalsy (pget p "answer") (orFalsy (pget p "text") "<no-answer-field>")

/-- Input dictionary of `retrieve_context`: the `"question"` key may be
absent (`KeyError` is then caught by the function's `except`). -/
structure RCInput where
  question : Option String
deriving DecidableEq, Repr

/-- `{"question": ..., "context": ...}` returned by `retrieve_context`. -/
structure RCResult where
  question : String
  context : List String
deriving DecidableEq, Repr

/-- `retrieve_context` (main.py lines 60-97). `embed` is the embedding
gateway (`get_embedding`), `search` the vector-index query; `Except.error`
models either call raising. The whole body is wrapped in `try/except`, so
every exception path lands in the
`{"question": input_dict.get("question",""), "context": ["Error ..."]}`
branch; zero hits are replaced by the no-context placeholder. -/
def retrieve_context {V : Type} (embed : String → Except String V)
    (search : V → Except String (List Hit)) (input : RCInput) : RCResult :=
  match input.question with
  | none => ⟨"", ["Error retrieving context from database."]⟩
  | some question =>
    match embed question with
    | .error _ => ⟨question, ["Error retrieving context from database."]⟩
    | .ok v =>
      match search v with
      | .error _ => ⟨question, ["Error retrieving context from database."]⟩
      | .ok hits =>
        let context_texts := hits.map (fun h => hitText (h.payload.getD []))
        if context_texts.isEmpty then
          ⟨question, ["No relevant context found in the database."]⟩
        else
          ⟨question, context_texts⟩

/-- Input dictionary of `build_rag_prompt`: either key may be absent. -/
structure BRInput where
  question : Option String
  context : Option (List String)
deriving DecidableEq, Repr

/-- `{"question": ..., "prompt": ...}` returned by `build_rag_prompt`. -/
structure BRResult where
  question : String
  prompt : String
deriving DecidableEq, Repr

/-- `build_rag_prompt` (main.py lines 99-112). A `KeyError` on either key
falls into the `except` branch, which renders the degraded
`"Question: ...\nAnswer:"` prompt with `input_dict.get("question","")`. -/
def build_rag_prompt (input : BRInput) : BRResult :=
  match input.question, input.context with
  | some q, some ctx =>
    ⟨q, "Use the following context to answer the question:\n\n" ++
        String.intercalate "\n\n" ctx ++ "\n\nQuestion: " ++ q ++ "\nAnswer:"⟩
  | _, _ =>
    ⟨(BRInput.question input).getD "",
     "Question: " ++ (BRInput.question input).getD "" ++ "\nAnswer:"⟩

/-- JSON payload `llm_mcp_call` posts to the generation backend. -/
structure LLMPayload where
  model : String
  messages : List MCPMessage
  max_tokens : Nat
  temperature : ℚ
deriving DecidableEq, Repr

/-- The hard-coded payload of main.py lines 120-125. -/
def mkLLMPayload (prompt : String) : LLMPayload :=
  ⟨"mistral", [⟨"system", prompt⟩], 256, 7/10⟩

/-- Outcome of `requests.post` plus `resp.json()` as `llm_mcp_call`
distinguishes them: `timeout` is `requests.exceptions.Timeout`,
`connError` is `requests.exceptions.ConnectionError`, `exc` any other
exception raised by the call, and `ok status jsonMessages` an HTTP
response; `jsonMessages = none` models `resp.json()` raising on a
malformed body (the parsed body's `"messages"` key defaulting to `[]` is
the `some []` case). -/
inductive HttpResult where
  | timeout
  | connError
  | exc
  | ok (status : Nat) (jsonMessages : Option (List MCPMessage))
deriving DecidableEq, Repr

/-- Input dictionary of `llm_mcp_call`: the `"prompt"` key may be absent
(`KeyError` is then caught by the blanket `except Exception`). -/
structure LCInput where
  prompt : Option String
deriving DecidableEq, Repr

/-- `llm_mcp_call` (main.py lines 114-153). `http` is the generation
backend; note `next((m["content"] for m in ... if m["role"] == "assistant"),
None)` takes the FIRST assistant entry, and `if assistant_content:` is a
truthiness test, so an empty first assistant content also falls to the
no-response fallback. -/
def llm_mcp_call (http : LLMPayload → HttpResult) (input : LCInput) : String :=
  match input.prompt with
  | none => "Sorry, there was an error generating the response."
  | some prompt =>
    match http (mkLLMPayload prompt) with
    | .timeout => "Sorry, the request timed out. Please try again."
    | .connError => "Sorry, I couldn't connect to the language model. Please try again."
    | .exc => "Sorry, there was an error generating the response."
    | .ok status jsonMessages =>
      if status = 200 then
        match jsonMessages with
        | none => "Sorry, there was an error generating the response."
        | some msgs =>
          match msgs.find? (fun m => m.role = "assistant") with
          | some m =>
            if m.content = "" then "I couldn't generate a response. Please try again."
            else m.content
          | none => "I couldn't generate a response. Please try again."
      else "Sorry, the language model is currently unavailable."

/-- The chained `rag_sequence = retrieve_context | build_rag_prompt |
llm_mcp_call` (main.py lines 157-161): each stage's returned dictionary is
fed to the next, so the intermediate keys are always present. -/
def rag_sequence {V : Type} (embed : String → Except String V)
    (search : V → Except String (List Hit)) (http : LLMPayload → HttpResult)
    (question : String) : String :=
  let rc := retrieve_context embed search ⟨some question⟩
  let br := build_rag_prompt ⟨some rc.question, some rc.context⟩
  llm_mcp_call http ⟨some br.prompt⟩

/-- An HTTP error response raised by the FastAPI endpoint
(status code and `detail`). -/
structure HTTPErr where
  status : Nat
  detail : String
deriving DecidableEq, Repr

/-- The `/ask` endpoint (main.py lines 164-189). When no user-role message
is present the code raises `HTTPException(status_code=400, detail="No user
message found")`, but that raise happens INSIDE the `try:` block, and
`fastapi.HTTPException` is a subclass of `Exception`, so the blanket
`except Exception as e` at line 187 catches it and re-raises
`HTTPException(status_code=500, detail=str(e))`; `str` of the original
exception is `"400: No user message found"`. The pipeline stages are all
total here, so no other exception reaches that handler. -/
def ask {V : Type} (embed : String → Except String V)
    (search : V → Except String (List Hit)) (http : LLMPayload → HttpResult)
    (request : MCPRequest) : Except HTTPErr MCPResponse :=
  let user_messages := request.messages.filter (fun m => m.role = "user")
  match user_messages.getLast? with
  | none => .error ⟨500, "400: No user message found"⟩
  | some m =>
    let answer := rag_sequence embed search http m.content
    .ok ⟨request.messages ++ [⟨"assistant", answer⟩]⟩

end RagMcp

namespace SlackAgent

open RagMcp (MCPMessage truthy)

/-- A message as returned by `conversations_history`: the three fields
`fetch_history` reads, each possibly absent. -/
structure SlackMsg where
  subtype : Option String
  bot_id : Option String
  text : Option String
deriving DecidableEq, Repr

/-- The fixed system message prepended by `fetch_history`. -/
def systemMsg : MCPMessage := ⟨"system", "You are a helpful assistant."⟩

/-- `fetch_history` (bot.py lines 22-43). `fetchRes` is the outcome of the
`conversations_history` call for the requested channel/thread/limit
(`Except.error` models the call raising; a response with no `"messages"`
key is `Except.ok []` via the `.get("messages", [])` default). The fetched
list is in transport order (most recent first); the code reverses it,
prepends the system message, skips messages with a truthy `subtype`, and
maps `bot_id`-truthy messages to role `assistant`, the rest to `user`. -/
def fetch_history (fetchRes : Except String (List SlackMsg)) : List MCPMessage :=
  match fetchRes with
  | .error _ => [systemMsg]
  | .ok msgs =>
    systemMsg ::
      (msgs.reverse.filter (fun m => !truthy m.subtype)).map
        (fun m => ⟨if truthy m.bot_id then "assistant" else "user", m.text.getD ""⟩)

/-- Assembly of the fetched, already-reversed message list following the
spec's words: walk the chronological list, skip any message carrying a
subtype marker, and map each remaining one to role `assistant` if it
carries a bot identifier and `user` otherwise. Used to state the
refinement theorem for `fetch_history`. -/
def assembleSpec : List SlackMsg → List MCPMessage
  | [] => []
  | m :: rest =>
    if truthy m.subtype then assembleSpec rest
    else ⟨if truthy m.bot_id then "assistant" else "user", m.text.getD ""⟩ :: assembleSpec rest

/-- `fetch_history` as §4.5 of the spec words it: reverse the transport
order, prepend the fixed system message, assemble; on any fetch failure
return only the system message. -/
def fetch_history_spec (fetchRes : Except String (List SlackMsg)) : List MCPMessage :=
  match fetchRes with
  | .error _ => [systemMsg]
  | .ok msgs => systemMsg :: assembleSpec msgs.reverse

/-- Outcome of the `requests.post` to the RAG server in
`call_mcp_rag_server`, with the same reading as `RagMcp.HttpResult`. -/
inductive RagHttp where
  | timeout
  | connError
  | exc
  | ok (status : Nat) (jsonMessages : Option (List MCPMessage))
deriving DecidableEq, Repr

/-- `call_mcp_rag_server` (bot.py lines 45-85). The posted payload is
`{model: MODEL_NAME, messages, max_tokens: MAX_TOKENS, temperature:
TEMPERATURE}`; `http` is the RAG server's behaviour on the posted message
list. Unlike `llm_mcp_call`, this client takes the LAST assistant entry
(`assistant_messages[-1]`), with a non-emptiness test on the filtered list
rather than on the content. -/
def call_mcp_rag_server (http : List MCPMessage → RagHttp)
    (messages : List MCPMessage) : String :=
  match http messages with
  | .timeout => "Sorry, the request timed out. Please try again."
  | .connError => "Sorry, I couldn't connect to the server. Please try again."
  | .exc => "Sorry, I couldn't fetch an answer right now."
  | .ok status jsonMessages =>
    if status = 200 then
      match jsonMessages with
      | none => "Sorry, I couldn't fetch an answer right now."
      | some msgs =>
        match (msgs.filter (fun m => m.role = "assistant")).getLast? with
        | some m => m.content
        | none => "Sorry, I couldn't process your request."
    else "Sorry, I couldn't fetch an answer right now."

/-- The `event` object of a Socket Mode payload: the fields the handlers
read, each possibly absent. -/
structure SlackEvent where
  type : Option String
  channel : Option String
  user : Option String
  ts : Option String
  thread_ts : Option String
  text : Option String
  bot_id : Option String
  subtype : Option String
deriving DecidableEq, Repr

/-- A Socket Mode envelope payload: `event` may be absent (then
`payload.get("event", {})` yields an empty dict, i.e. every field reads as
absent). -/
structure SocketPayload where
  event : Option SlackEvent
  event_id : Option String
deriving DecidableEq, Repr

/-- A Socket Mode request: envelope identifier plus payload. -/
structure SocketModeRequest where
  envelope_id : String
  payload : SocketPayload
deriving DecidableEq, Repr

/-- Externally visible actions of the event handlers, in program order.
`post` records a `chat_postMessage` attempt (channel, text, thread_ts). -/
inductive Effect where
  | ack (envelope_id : String)
  | post (channel : Option String) (text : String) (thread_ts : Option String)
deriving DecidableEq, Repr

/-- Behaviour of the bot's external dependencies during one event:
the `conversations_history` outcome, the RAG-server HTTP outcome, and
whether each `chat_postMessage` attempt succeeds (`postOk` for the answer
post, `apologyOk` for the best-effort apology; a failed apology is only
logged). -/
structure BotEnv where
  history : Except String (List SlackMsg)
  rag : List MCPMessage → RagHttp
  postOk : Bool
  apologyOk : Bool

/-- `handle_message` (bot.py lines 87-136), as the list of post attempts it
makes. Its whole body is in `try/except`, and the `except` block's own post
is again guarded, so it never raises: a failed answer post is followed by a
best-effort apology post to the same channel/thread. The message list sent
to the RAG server is the fetched history plus the new user message; it only
influences the answer through `env.rag`. -/
def handle_message (env : BotEnv) (payload : SocketPayload) : List Effect :=
  match payload.event with
  | none => []
  | some event =>
    if !truthy event.user || truthy event.subtype || truthy event.bot_id then []
    else
      let thread_ts := (event.thread_ts).orElse (fun _ => event.ts)
      let messages := fetch_history env.history ++ [⟨"user", event.text.getD ""⟩]
      let answer := call_mcp_rag_server env.rag messages
      if env.postOk then [.post event.channel answer thread_ts]
      else
        [.post event.channel answer thread_ts,
         .post event.channel
           "Sorry, something went wrong processing your message. Please try again."
           thread_ts]

/-- `events_api_handler` (bot.py lines 138-162): acknowledge the envelope
first, then dispatch `"message"`-typed events to `handle_message` and
ignore the rest. `handle_message` is total, so the handler's own `except`
block (which would send a second acknowledgment) is unreachable for
structured payloads. -/
def events_api_handler (env : BotEnv) (req : SocketModeRequest) : List Effect :=
  Effect.ack req.envelope_id ::
    (match req.payload.event with
     | some event => if event.type = some "message" then handle_message env req.payload else []
     | none => [])

/-- Whether an effect is an acknowledgment. -/
def isAck : Effect → Bool
  | .ack _ => true
  | .post _ _ _ => false

end SlackAgent

namespace RagMcp

/-- Joining a list of context snippets with a blank line, written as the
spec words it (recursively inserting `"\n\n"` between adjacent items);
used to state the template theorem independently of
`String.intercalate`. -/
def joinBlankLine : List String → String
  | [] => ""
  | [s] => s
  | s :: t :: rest => s ++ ("\n\n" ++ joinBlankLine (t :: rest))

/-- Helper for relating `String.intercalate.go` to `joinBlankLine`:
the separator-led join of a tail. -/
def tailJoin (s : String) : List String → String
  | [] => ""
  | a :: as => s ++ a ++ tailJoin s as

/-- Hit-text extraction as the claim words it: the `"answer"` field if that
field is PRESENT, else the `"text"` field if present, else the sentinel.
This is the spec-side reading of the fallback chain, to be compared with
the source's `hitText`. -/
def hitText_presence (p : Payload) : String :=
  match pget p "answer" with
  | some s => s
  | none =>
    match pget p "text" with
    | some s => s
    | none => "<no-answer-field>"

/-- Hit-text extraction with the fallback chain keyed on the field being
present AND non-empty (Python truthiness), written out explicitly; the
amended reading of the extraction rule. -/
def hitText_nonempty (p : Payload) : String :=
  match pget p "answer" with
  | some s =>
    if s = "" then
      match pget p "text" with
      | some t => if t = "" then "<no-answer-field>" else t
      | none => "<no-answer-field>"
    else s
  | none =>
    match pget p "text" with
    | some t => if t = "" then "<no-answer-field>" else t
    | none => "<no-answer-field>"

end RagMcp

namespace RagMcp

theorem intercalate_go_eq (s : String) :
    ∀ (as : List String) (acc : String),
      String.intercalate.go acc s as = acc ++ tailJoin s as
  | [], acc => by simp [String.intercalate.go, tailJoin]
  | a :: as, acc => by
    rw [String.intercalate.go, intercalate_go_eq s as, tailJoin]
    simp [String.append_assoc]

theorem joinBlankLine_cons :
    ∀ (a : String) (as : List String),
      joinBlankLine (a :: as) = a ++ tailJoin "\n\n" as
  | a, [] => by simp [joinBlankLine, tailJoin]
  | a, b :: as => by
    rw [joinBlankLine, joinBlankLine_cons b as, tailJoin]
    simp [String.append_assoc]

theorem intercalate_eq_joinBlankLine (l : List String) :
    String.intercalate "\n\n" l = joinBlankLine l := by
  cases l with
  | nil => rfl
  | cons a as => rw [String.intercalate, intercalate_go_eq, joinBlankLine_cons]

theorem hitText_eq_nonempty (p : Payload) : hitText p = hitText_nonempty p := by
  unfold hitText hitText_nonempty orFalsy
  cases pget p "answer" with
  | none =>
    cases pget p "text" with
    | none => rfl
    | some t => by_cases ht : t = "" <;> simp [ht]
  | some s =>
    cases pget p "text" with
    | none => by_cases hs : s = "" <;> simp [hs]
    | some t =>
      by_cases hs : s = "" <;> by_cases ht : t = "" <;> simp [hs, ht]

/-- C1: for every question and every behaviour of the embedding and
vector-index dependencies, `retrieve_context` returns (it is total, so
never raises) a result whose context is non-empty, and the context is the
ranked hit texts when hits exist, the no-context placeholder when the
search returns zero hits, and the error placeholder when the embedding or
the search raises. -/
theorem retrieve_context_never_empty {V : Type} (embed : String → Except String V)
    (search : V → Except String (List Hit)) (input : RCInput) (q : String)
    (hq : input.question = some q) :
    (retrieve_context embed search input).context ≠ [] ∧
    (∀ e, embed q = .error e →
      (retrieve_context embed search input).context =
        ["Error retrieving context from database."]) ∧
    (∀ v e, embed q = .ok v → search v = .error e →
      (retrieve_context embed search input).context =
        ["Error retrieving context from database."]) ∧
    (∀ v, embed q = .ok v → search v = .ok [] →
      (retrieve_context embed search input).context =
        ["No relevant context found in the database."]) ∧
    (∀ v hits, embed q = .ok v → search v = .ok hits → hits ≠ [] →
      (retrieve_context embed search input).context =
        hits.map (fun h => hitText (h.payload.getD []))) := by
  obtain ⟨oq⟩ := input
  obtain rfl : oq = some q := hq
  refine ⟨?_, ?_, ?_, ?_, ?_⟩
  · cases hemb : embed q with
    | error e => simp [retrieve_context, hemb]
    | ok v =>
      cases hs : search v with
      | error e => simp [retrieve_context, hemb, hs]
      | ok hits =>
        cases hits with
        | nil => simp [retrieve_context, hemb, hs]
        | cons h t => simp [retrieve_context, hemb, hs]
  · intro e he
    simp [retrieve_context, he]
  · intro v e he hs
    simp [retrieve_context, he, hs]
  · intro v he hs
    simp [retrieve_context, he, hs]
  · intro v hits he hs hne
    cases hits with
    | nil => exact absurd rfl hne
    | cons h t => simp [retrieve_context, he, hs]

theorem retrieve_context_never_empty_witness :
    (retrieve_context (fun _ : String => Except.error "down")
      (fun _ : Unit => Except.ok ([] : List Hit)) ⟨some "q"⟩).context ≠ [] :=
  (retrieve_context_never_empty (fun _ : String => Except.error "down")
    (fun _ : Unit => Except.ok ([] : List Hit)) ⟨some "q"⟩ "q" rfl).1

/-- C3: for every question and every non-empty context sequence, the
prompt built by `build_rag_prompt` is byte-exactly the fixed template with
the context items joined by a blank line. -/
theorem build_rag_prompt_template (q : String) (ctx : List String)
    (hc : ctx ≠ []) :
    (build_rag_prompt ⟨some q, some ctx⟩).prompt =
      "Use the following context to answer the question:\n\n" ++
        joinBlankLine ctx ++ "\n\nQuestion: " ++ q ++ "\nAnswer:" := by
  simp [build_rag_prompt, intercalate_eq_joinBlankLine]

theorem build_rag_prompt_template_witness :
    (build_rag_prompt ⟨some "Q", some ["a", "b"]⟩).prompt =
      "Use the following context to answer the question:\n\na\n\nb\n\nQuestion: Q\nAnswer:" :=
  (build_rag_prompt_template "Q" ["a", "b"] (by decide)).trans (by rfl)

/-- C8 counterexample: on a missing `context` field the composer does NOT
render the fixed template with an empty joined context — it falls into the
`except KeyError` branch and emits the degraded no-context prompt. -/
theorem build_rag_prompt_missing_context_counterexample :
    (build_rag_prompt ⟨some "q", none⟩).prompt ≠
      "Use the following context to answer the question:\n\n\n\nQuestion: q\nAnswer:" := by
  decide

/-- C8 amended: `build_rag_prompt` is total, and on every input whose
`context` field is missing it returns the degraded template
`"Question: {question}\nAnswer:"` (with a missing question read as `""`),
not the full context template. -/
theorem build_rag_prompt_missing_context (input : BRInput)
    (h : input.context = none) :
    (build_rag_prompt input).prompt =
      "Question: " ++ input.question.getD "" ++ "\nAnswer:" := by
  obtain ⟨oq, oc⟩ := input
  obtain rfl : oc = none := h
  cases oq <;> rfl

theorem build_rag_prompt_missing_context_witness :
    (build_rag_prompt ⟨some "q", none⟩).prompt = "Question: q\nAnswer:" :=
  (build_rag_prompt_missing_context ⟨some "q", none⟩ rfl).trans (by rfl)

/-- C2: each failure class of the generation call maps to exactly the
verbatim fallback string: timeout, connection error, non-200 status,
HTTP 200 with no assistant-role message found, and any other exception. -/
theorem llm_mcp_call_fallbacks (http : LLMPayload → HttpResult)
    (input : LCInput) (p : String) (hp : input.prompt = some p) :
    (http (mkLLMPayload p) = .timeout →
      llm_mcp_call http input = "Sorry, the request timed out. Please try again.") ∧
    (http (mkLLMPayload p) = .connError →
      llm_mcp_call http input =
        "Sorry, I couldn't connect to the language model. Please try again.") ∧
    (∀ s jm, http (mkLLMPayload p) = .ok s jm → s ≠ 200 →
      llm_mcp_call http input = "Sorry, the language model is currently unavailable.") ∧
    (∀ jm, http (mkLLMPayload p) = .ok 200 (some jm) →
      jm.find? (fun m => m.role = "assistant") = none →
      llm_mcp_call http input = "I couldn't generate a response. Please try again.") ∧
    (http (mkLLMPayload p) = .exc →
      llm_mcp_call http input = "Sorry, there was an error generating the response.") := by
  obtain ⟨op⟩ := input
  obtain rfl : op = some p := hp
  refine ⟨?_, ?_, ?_, ?_, ?_⟩
  · intro h
    simp [llm_mcp_call, h]
  · intro h
    simp [llm_mcp_call, h]
  · intro s jm h hs
    simp [llm_mcp_call, h, hs]
  · intro jm h hfind
    simp [llm_mcp_call, h, hfind]
  · intro h
    simp [llm_mcp_call, h]

theorem llm_mcp_call_fallbacks_witness :
    llm_mcp_call (fun _ => .timeout) ⟨some "p"⟩ =
      "Sorry, the request timed out. Please try again." :=
  (llm_mcp_call_fallbacks (fun _ => .timeout) ⟨some "p"⟩ "p" rfl).1 rfl

/-- C5 counterexample: on HTTP 200 with two assistant-role entries
`"A"` then `"B"`, the last assistant entry's content is `"B"` but
`llm_mcp_call` returns `"A"` — `next(...)` takes the FIRST assistant
entry, not the last one the claim (and §6 of the spec) names. -/
theorem llm_mcp_call_not_last_assistant :
    (([⟨"assistant", "A"⟩, ⟨"assistant", "B"⟩] : List MCPMessage).filter
        (fun m => m.role = "assistant")).getLast? = some ⟨"assistant", "B"⟩ ∧
    llm_mcp_call
        (fun _ => .ok 200 (some [⟨"assistant", "A"⟩, ⟨"assistant", "B"⟩]))
        ⟨some "p"⟩ = "A" ∧
    ("A" : String) ≠ "B" := by
  refine ⟨by decide, by decide, by decide⟩

theorem find?_append_of_not_before {α : Type} (p : α → Bool)
    (pre post : List α) (m : α) (hpre : ∀ x ∈ pre, p x = false)
    (hm : p m = true) : (pre ++ m :: post).find? p = some m := by
  induction pre with
  | nil => simp [List.find?_cons, hm]
  | cons a t ih =>
    have ha : p a = false := hpre a (by simp)
    simp only [List.cons_append, List.find?_cons, ha]
    exact ih (fun x hx => hpre x (by simp [hx]))

/-- C5 amended: on HTTP 200, the Generation Client returns the content of
the FIRST assistant-role entry in the reply's message list, provided that
content is non-empty; the request's model/tokens/temperature are the
hard-coded payload of `mkLLMPayload`. -/
theorem llm_mcp_call_first_assistant (http : LLMPayload → HttpResult)
    (input : LCInput) (p : String) (pre post : List MCPMessage)
    (m : MCPMessage) (hp : input.prompt = some p)
    (hhttp : http (mkLLMPayload p) = .ok 200 (some (pre ++ m :: post)))
    (hpre : ∀ x ∈ pre, x.role ≠ "assistant")
    (hm : m.role = "assistant") (hc : m.content ≠ "") :
    llm_mcp_call http input = m.content := by
  obtain ⟨op⟩ := input
  obtain rfl : op = some p := hp
  have hfind : (pre ++ m :: post).find? (fun x => x.role = "assistant") = some m := by
    refine find?_append_of_not_before _ pre post m (fun x hx => ?_) (by simp [hm])
    simpa using hpre x hx
  simp [llm_mcp_call, hhttp, hfind, hc]

theorem llm_mcp_call_first_assistant_witness :
    llm_mcp_call
        (fun _ => .ok 200 (some [⟨"system", "s"⟩, ⟨"assistant", "ans"⟩]))
        ⟨some "p"⟩ = "ans" :=
  llm_mcp_call_first_assistant
    (fun _ => .ok 200 (some [⟨"system", "s"⟩, ⟨"assistant", "ans"⟩]))
    ⟨some "p"⟩ "p" [⟨"system", "s"⟩] [] ⟨"assistant", "ans"⟩
    rfl rfl (by decide) rfl (by decide)

/-- C4: the claim is right about intent but the code slips — when no
user-role message is present, `/ask` raises `HTTPException(400)` inside
the `try:` block, the blanket `except Exception` catches it and re-raises
it as status 500. The theorem shows the observable outcome at every such
request: a 500 (not a 4xx) whose detail wraps the original 400, and the
result does not depend on the pipeline oracles, i.e. the pipeline is not
invoked. -/
theorem ask_no_user_message_is_500 {V : Type} (embed : String → Except String V)
    (search : V → Except String (List Hit)) (http : LLMPayload → HttpResult)
    (req : MCPRequest)
    (h : req.messages.filter (fun m => m.role = "user") = []) :
    ask embed search http req = .error ⟨500, "400: No user message found"⟩ := by
  simp [ask, h]

theorem ask_no_user_message_is_500_witness :
    ask (fun _ : String => Except.error "down")
      (fun _ : Unit => Except.ok ([] : List Hit)) (fun _ => HttpResult.timeout)
      ⟨"any-model", [⟨"system", "hi"⟩], 1, 0⟩ =
      .error ⟨500, "400: No user message found"⟩ :=
  ask_no_user_message_is_500 (fun _ : String => Except.error "down")
    (fun _ : Unit => Except.ok ([] : List Hit)) (fun _ => HttpResult.timeout)
    ⟨"any-model", [⟨"system", "hi"⟩], 1, 0⟩ (by decide)

/-- C9 counterexample: on a hit whose payload has the `"answer"` field
PRESENT but empty (and `"text"` set to `"t"`), the code's truthiness
chain yields `"t"`, while the claim's presence-keyed chain
(`hitText_presence`) yields `""` — so the context entry is not what the
claim predicts. -/
theorem retrieve_context_truthiness_counterexample :
    (retrieve_context (fun _ : String => Except.ok ())
        (fun _ : Unit => Except.ok [⟨some [("answer", ""), ("text", "t")]⟩])
        ⟨some "q"⟩).context = ["t"] ∧
    hitText_presence [("answer", ""), ("text", "t")] = "" := by
  refine ⟨by decide, by decide⟩

/-- C9 amended: for every non-empty hit list returned by the index, the
context has one entry per hit in the index's order, each entry extracted
by the fallback chain keyed on the field being present AND non-empty:
`"answer"`, then `"text"`, else the sentinel (`hitText_nonempty`). -/
theorem retrieve_context_entries {V : Type} (embed : String → Except String V)
    (search : V → Except String (List Hit)) (input : RCInput) (q : String)
    (v : V) (hits : List Hit) (hq : input.question = some q)
    (he : embed q = .ok v) (hs : search v = .ok hits) (hne : hits ≠ []) :
    (retrieve_context embed search input).context =
      hits.map (fun h => hitText_nonempty (h.payload.getD [])) := by
  obtain ⟨oq⟩ := input
  obtain rfl : oq = some q := hq
  cases hits with
  | nil => exact absurd rfl hne
  | cons h t =>
    simp only [retrieve_context, he, hs, List.map_cons, List.isEmpty_cons]
    simp [List.map_congr_left, hitText_eq_nonempty]

theorem retrieve_context_entries_witness :
    (retrieve_context (fun _ : String => Except.ok ())
        (fun _ : Unit => Except.ok [⟨some [("answer", "a")]⟩])
        ⟨some "q"⟩).context = ["a"] :=
  (retrieve_context_entries (fun _ : String => Except.ok ())
    (fun _ : Unit => Except.ok [⟨some [("answer", "a")]⟩]) ⟨some "q"⟩ "q" ()
    [⟨some [("answer", "a")]⟩] rfl rfl rfl (by decide)).trans (by rfl)

/-- C10: two `/ask` requests whose last user-role messages have identical
content get the identical generated answer, for every fixed behaviour of
the embedding, index and generation oracles — the earlier messages and the
request's own `model`/`max_tokens`/`temperature` fields (which may differ
arbitrarily between the two requests) have no effect on the answer. -/
theorem ask_depends_only_on_last_user {V : Type} (embed : String → Except String V)
    (search : V → Except String (List Hit)) (http : LLMPayload → HttpResult)
    (r1 r2 : MCPRequest) (m1 m2 : MCPMessage)
    (h1 : (r1.messages.filter (fun m => m.role = "user")).getLast? = some m1)
    (h2 : (r2.messages.filter (fun m => m.role = "user")).getLast? = some m2)
    (hc : m1.content = m2.content) :
    ∃ a, ask embed search http r1 = .ok ⟨r1.messages ++ [⟨"assistant", a⟩]⟩ ∧
      ask embed search http r2 = .ok ⟨r2.messages ++ [⟨"assistant", a⟩]⟩ := by
  refine ⟨rag_sequence embed search http m1.content, ?_, ?_⟩
  · simp [ask, h1]
  · simp [ask, h2, hc]

theorem ask_depends_only_on_last_user_witness :
    ∃ a,
      ask (fun _ : String => Except.error "down")
        (fun _ : Unit => Except.ok ([] : List Hit)) (fun _ => HttpResult.timeout)
        ⟨"model-one", [⟨"user", "q"⟩, ⟨"system", "s"⟩], 1, 0⟩ =
        .ok ⟨[⟨"user", "q"⟩, ⟨"system", "s"⟩] ++ [⟨"assistant", a⟩]⟩ ∧
      ask (fun _ : String => Except.error "down")
        (fun _ : Unit => Except.ok ([] : List Hit)) (fun _ => HttpResult.timeout)
        ⟨"model-two", [⟨"assistant", "z"⟩, ⟨"user", "q"⟩], 999, 1⟩ =
        .ok ⟨[⟨"assistant", "z"⟩, ⟨"user", "q"⟩] ++ [⟨"assistant", a⟩]⟩ :=
  ask_depends_only_on_last_user (fun _ : String => Except.error "down")
    (fun _ : Unit => Except.ok ([] : List Hit)) (fun _ => HttpResult.timeout)
    ⟨"model-one", [⟨"user", "q"⟩, ⟨"system", "s"⟩], 1, 0⟩
    ⟨"model-two", [⟨"assistant", "z"⟩, ⟨"user", "q"⟩], 999, 1⟩
    ⟨"user", "q"⟩ ⟨"user", "q"⟩ (by decide) (by decide) rfl

end RagMcp

namespace SlackAgent

open RagMcp (MCPMessage truthy)

theorem handle_message_no_ack (env : BotEnv) (payload : SocketPayload) :
    (handle_message env payload).filter isAck = [] := by
  unfold handle_message
  rcases payload with ⟨ev, eid⟩
  cases ev with
  | none => rfl
  | some event =>
    simp only
    split
    · rfl
    · split <;> simp [isAck]

/-- C6: for every received chat event and every behaviour of the bot's
dependencies, the handler's effect trace starts with the acknowledgment of
the event's envelope identifier — so it is sent before any processing
(history fetch, RAG call, reply post) — and that acknowledgment is the
only one in the trace, whether the event is processed, ignored, or its
posts fail. -/
theorem events_api_handler_ack_first (env : BotEnv) (req : SocketModeRequest) :
    (events_api_handler env req).head? = some (.ack req.envelope_id) ∧
    (events_api_handler env req).filter isAck = [.ack req.envelope_id] := by
  constructor
  · rfl
  · show (Effect.ack req.envelope_id :: _).filter isAck = _
    rw [List.filter_cons_of_pos (by rfl)]
    congr 1
    cases hev : req.payload.event with
    | none => simp [events_api_handler, hev]
    | some event =>
      by_cases ht : event.type = some "message"
      · simp [events_api_handler, hev, ht, handle_message_no_ack]
      · simp [events_api_handler, hev, ht]

theorem assembleSpec_eq_filter_map (l : List SlackMsg) :
    (l.filter (fun m => !truthy m.subtype)).map
        (fun m => (⟨if truthy m.bot_id then "assistant" else "user",
          m.text.getD ""⟩ : MCPMessage)) = assembleSpec l := by
  induction l with
  | nil => rfl
  | cons m rest ih =>
    by_cases hm : truthy m.subtype
    · simp [assembleSpec, hm, ih]
    · simp [assembleSpec, hm, ih]

/-- C7: `fetch_history` coincides with the spec-side assembler
(`fetch_history_spec`): a successful fetch yields the fixed system message
followed by the fetched messages in chronological order (the reverse of
transport order), each mapped to role `assistant` when it carries a bot
identifier and `user` otherwise, with subtype-carrying messages skipped;
a failed fetch yields exactly the single system message, and the function
is total, so the error never propagates. -/
theorem fetch_history_matches_spec (fetchRes : Except String (List SlackMsg)) :
    fetch_history fetchRes = fetch_history_spec fetchRes ∧
    (fetch_history fetchRes).head? = some systemMsg ∧
    (∀ e, fetch_history (.error e) = [systemMsg]) := by
  refine ⟨?_, ?_, fun e => rfl⟩
  · cases fetchRes with
    | error e => rfl
    | ok msgs =>
      simp only [fetch_history, fetch_history_spec]
      rw [assembleSpec_eq_filter_map]
  · cases fetchRes with
    | error e => rfl
    | ok msgs => rfl

end SlackAgent
